import Mathlib

/-!
Verification of the MPC telemetry-processing bridge (`src/main.cpp`).

The file embeds the per-telemetry pipeline of `main.cpp` over the reals:
the kinematic latency predictor (lines 100-105), the waypoint frame
transform (lines 108-115), the polynomial evaluator `polyeval`
(lines 36-42) and fitter `polyfit` (lines 47-66), the error extraction
(lines 120-122), the solver-output unpacking (lines 132-155) and the
actuation normalization (lines 17, 134-135).  C++ `double` arithmetic is
idealized as real arithmetic; the external QR least-squares solver
(`Eigen`'s `householderQr().solve`) is a parameter of the embedding,
since only its invocation, not its implementation, lives in this
repository.  A C++ `assert` failure aborts the process; the embedding
makes that an explicit `abort` outcome.
-/

noncomputable section

/-- Latency interval Δt hard-coded in `main.cpp` line 100. -/
def latency : ℝ := 0.1

/-- Effective wheelbase `Lf` from `main.cpp` line 101. -/
def Lf : ℝ := 2.67

/-- Throttle-to-acceleration gain (the literal `9.81` in `main.cpp` line 105). -/
def throttleGain : ℝ := 9.81

/-- Degrees-to-radians conversion, `main.cpp` line 17. -/
def deg2rad (x : ℝ) : ℝ := x * Real.pi / 180

/-- Kinematic predictor, `main.cpp` lines 102-105: forward-projects the pose
`(px, py, psi)` and speed `v` by `dt` under constant controls, returning
`(px_pred, py_pred, psi_pred, v_pred)`. -/
def predict (px py psi v steering throttle dt lf g : ℝ) : ℝ × ℝ × ℝ × ℝ :=
  (px + v * Real.cos psi * dt,
   py + v * Real.sin psi * dt,
   psi - v / lf * dt * steering,
   v + throttle * g * dt)

/-- Frame transform of one waypoint into the predicted-pose local frame,
`main.cpp` lines 111-114: translate by `(-px_pred, -py_pred)`, then rotate
by `-psi_pred`. -/
def toLocal (pxPred pyPred psiPred : ℝ) (w : ℝ × ℝ) : ℝ × ℝ :=
  ((w.1 - pxPred) * Real.cos (-psiPred) - (w.2 - pyPred) * Real.sin (-psiPred),
   (w.1 - pxPred) * Real.sin (-psiPred) + (w.2 - pyPred) * Real.cos (-psiPred))

/-- The rotation part of the frame transform (`main.cpp` lines 113-114 with the
translation already applied): rotation of a plane vector by `-psi_pred`. -/
def rotToLocal (psiPred : ℝ) (v : ℝ × ℝ) : ℝ × ℝ :=
  (v.1 * Real.cos (-psiPred) - v.2 * Real.sin (-psiPred),
   v.1 * Real.sin (-psiPred) + v.2 * Real.cos (-psiPred))

/-- Polynomial evaluation, `main.cpp` lines 36-42: `Σ coeffs[i] * x^i`. -/
def polyeval (coeffs : List ℝ) (x : ℝ) : ℝ :=
  ∑ i in Finset.range coeffs.length, coeffs.getD i 0 * x ^ i

/-- Cross-track error, `main.cpp` line 120: the fitted curve at `x = 0`. -/
def cteOf (coeffs : List ℝ) : ℝ := polyeval coeffs 0

/-- Heading error, `main.cpp` line 122: `-atan(coeffs[1])`. -/
def epsiOf (coeffs : List ℝ) : ℝ := -Real.arctan (coeffs.getD 1 0)

/-- Error taxonomy of the specification's Curve Fitter contract.  The source
never constructs such a value (its only failure mode is the `assert` abort);
the type exists so that the propagated-error behaviour the specification
describes can be compared with the source's behaviour. -/
inductive SpecFitError where
  | UnderdeterminedFit

/-- Outcome of a C++ computation that may abort: `ok` is normal return,
`abort` is an `assert` failure terminating the process, and `specError` is
the recoverable propagated error the specification postulates (never
produced by the source). -/
inductive FitOutcome (α : Type) where
  | ok (value : α)
  | specError (e : SpecFitError)
  | abort

/-- One row of the Vandermonde design matrix built by the running product of
`main.cpp` lines 57-61: `cur` is the current power `A(j, i)`, and each step
appends `A(j, i) * x`. -/
def vrowFrom (x : ℝ) : ℝ → ℕ → List ℝ
  | cur, 0 => [cur]
  | cur, n + 1 => cur :: vrowFrom x (cur * x) n

/-- Row `[1, x, x^2, ..., x^order]` of the design matrix (`main.cpp`
lines 53-61, starting from `A(j, 0) = 1`). -/
def vrow (x : ℝ) (order : ℕ) : List ℝ := vrowFrom x 1 order

/-- The Vandermonde design matrix of `main.cpp` lines 51-61, one row per
sample. -/
def vandermonde (xvals : List ℝ) (order : ℕ) : List (List ℝ) :=
  xvals.map (fun x => vrow x order)

/-- Polynomial fitter, `main.cpp` lines 47-66.  The two `assert`s (equal
sizes, then `1 ≤ order ≤ size - 1`) abort on violation; otherwise the
external QR solver `solve` is applied to the Vandermonde matrix, mirroring
`A.householderQr().solve(yvals)`. -/
def polyfit (solve : List (List ℝ) → List ℝ → List ℝ)
    (xvals yvals : List ℝ) (order : ℤ) : FitOutcome (List ℝ) :=
  if xvals.length = yvals.length then
    if 1 ≤ order ∧ order ≤ (xvals.length : ℤ) - 1 then
      .ok (solve (vandermonde xvals order.toNat) yvals)
    else .abort
  else .abort

/-- A trivial stand-in for the external QR solver, used only to instantiate
theorems at concrete inputs on which the solver's value is irrelevant
(the guard aborts before it is called). -/
def solve0 : List (List ℝ) → List ℝ → List ℝ := fun _ _ => []

/-- One decoded telemetry message, `main.cpp` lines 88-95. -/
structure Telemetry where
  ptsx : List ℝ
  ptsy : List ℝ
  px : ℝ
  py : ℝ
  psi : ℝ
  v : ℝ
  steering : ℝ
  throttle : ℝ

/-- The telemetry cycle of `main.cpp` lines 96-126, translated line by line
up to the solver boundary: convert the speed to m/s, predict the pose after
the latency, transform the waypoints into the predicted local frame, fit a
degree-3 polynomial, extract the errors, and build the 6-entry state vector
`[0, 0, 0, v_pred, cte, epsi]` passed to `mpc.Solve` together with the
fitted coefficients. -/
def cycleOf (solve : List (List ℝ) → List ℝ → List ℝ) (t : Telemetry) :
    FitOutcome (List ℝ × List ℝ) :=
  let v := t.v * 0.44704
  let pxPred := t.px + v * Real.cos t.psi * latency
  let pyPred := t.py + v * Real.sin t.psi * latency
  let psiPred := t.psi - v / Lf * latency * t.steering
  let vPred := v + t.throttle * 9.81 * latency
  let pts := t.ptsx.zip t.ptsy
  let ptsxCc := pts.map (fun w =>
    (w.1 - pxPred) * Real.cos (-psiPred) - (w.2 - pyPred) * Real.sin (-psiPred))
  let ptsyCc := pts.map (fun w =>
    (w.1 - pxPred) * Real.sin (-psiPred) + (w.2 - pyPred) * Real.cos (-psiPred))
  match polyfit solve ptsxCc ptsyCc 3 with
  | .ok coeffs =>
      .ok ([0, 0, 0, vPred, polyeval coeffs 0, -Real.arctan (coeffs.getD 1 0)], coeffs)
  | .specError e => .specError e
  | .abort => .abort

/-- The same cycle expressed through the stage functions, taking the speed
already in m/s (no `0.44704` conversion anywhere inside). -/
def cycleFromMs (solve : List (List ℝ) → List ℝ → List ℝ) (t : Telemetry) :
    FitOutcome (List ℝ × List ℝ) :=
  let p := predict t.px t.py t.psi t.v t.steering t.throttle latency Lf throttleGain
  let pts := t.ptsx.zip t.ptsy
  let ptsxCc := pts.map (fun w => (toLocal p.1 p.2.1 p.2.2.1 w).1)
  let ptsyCc := pts.map (fun w => (toLocal p.1 p.2.1 p.2.2.1 w).2)
  match polyfit solve ptsxCc ptsyCc 3 with
  | .ok coeffs => .ok ([0, 0, 0, p.2.2.2, cteOf coeffs, epsiOf coeffs], coeffs)
  | .specError e => .specError e
  | .abort => .abort

/-- Division with an explicit definedness check: `none` exactly when the
divisor is zero (the situation a C++ division would be undefined in). -/
def checkedDiv (a b : ℝ) : Option ℝ :=
  if b = 0 then none else some (a / b)

/-- The telemetry cycle with its one division (`v / Lf` in `main.cpp`
line 104) routed through `checkedDiv`; every other operation of the
predictor, transform and error extraction is total on the reals. -/
def checkedCycleOf (solve : List (List ℝ) → List ℝ → List ℝ) (t : Telemetry) :
    Option (FitOutcome (List ℝ × List ℝ)) :=
  let v := t.v * 0.44704
  let pxPred := t.px + v * Real.cos t.psi * latency
  let pyPred := t.py + v * Real.sin t.psi * latency
  (checkedDiv v Lf).map (fun q =>
    let psiPred := t.psi - q * latency * t.steering
    let vPred := v + t.throttle * 9.81 * latency
    let pts := t.ptsx.zip t.ptsy
    let ptsxCc := pts.map (fun w =>
      (w.1 - pxPred) * Real.cos (-psiPred) - (w.2 - pyPred) * Real.sin (-psiPred))
    let ptsyCc := pts.map (fun w =>
      (w.1 - pxPred) * Real.sin (-psiPred) + (w.2 - pyPred) * Real.cos (-psiPred))
    match polyfit solve ptsxCc ptsyCc 3 with
    | .ok coeffs =>
        .ok ([0, 0, 0, vPred, polyeval coeffs 0, -Real.arctan (coeffs.getD 1 0)], coeffs)
    | .specError e => .specError e
    | .abort => .abort)

/-- Raw steering read from the solver output, `main.cpp` line 134:
`solution[0]`. -/
def steerRaw (sol : List ℝ) : ℝ := sol.getD 0 0

/-- Raw throttle read from the solver output, `main.cpp` line 135:
`solution[1]`. -/
def throttleRaw (sol : List ℝ) : ℝ := sol.getD 1 0

/-- Normalized steering command, `main.cpp` line 134:
`-1 * solution[0] / deg2rad(25)`. -/
def steerValueOf (sol : List ℝ) : ℝ := -1 * steerRaw sol / deg2rad 25

/-- Throttle command, `main.cpp` line 135: `solution[1]`, unchanged. -/
def throttleValueOf (sol : List ℝ) : ℝ := throttleRaw sol

/-- Number of trajectory points recovered from the solver output,
`main.cpp` line 151: `(solution.size() - 2) / 2`. -/
def trajN (sol : List ℝ) : ℕ := (sol.length - 2) / 2

/-- Trajectory x-coordinates, `main.cpp` line 153: `solution[i + 2]`. -/
def mpcX (sol : List ℝ) : List ℝ :=
  (List.range (trajN sol)).map (fun i => sol.getD (i + 2) 0)

/-- Trajectory y-coordinates, `main.cpp` line 154: `solution[i + 2 + N]`. -/
def mpcY (sol : List ℝ) : List ℝ :=
  (List.range (trajN sol)).map (fun i => sol.getD (i + 2 + trajN sol) 0)

/-- The recovered trajectory as (x, y) pairs, paired by index. -/
def trajPairs (sol : List ℝ) : List (ℝ × ℝ) := (mpcX sol).zip (mpcY sol)

/-- C1: the Kinematic Predictor returns exactly
`x + v·cos(ψ)·Δt`, `y + v·sin(ψ)·Δt`, `ψ − (v/Lf)·steering·Δt` and
`v + throttle·g·Δt`; in particular the heading strictly decreases under
positive speed, steering, latency and wheelbase. -/
theorem c1_kinematic_predictor (px py psi v steering throttle dt lf g : ℝ) :
    predict px py psi v steering throttle dt lf g =
      (px + v * Real.cos psi * dt, py + v * Real.sin psi * dt,
       psi - v / lf * steering * dt, v + throttle * g * dt) ∧
    (0 < v → 0 < steering → 0 < dt → 0 < lf →
      (predict px py psi v steering throttle dt lf g).2.2.1 < psi) := by
  constructor
  · simp only [predict, Prod.mk.injEq]
    exact ⟨trivial, trivial, by ring, trivial⟩
  · intro hv hs hd hl
    simp only [predict]
    have hpos : 0 < v / lf * dt * steering := by positivity
    linarith

/-- Witness for C1 at pose `(0,0,0)`, `v = steering = dt = lf = 1`: the
predicted heading is strictly below the input heading `0`. -/
theorem c1_witness :
    (predict 0 0 0 1 1 0 1 1 9.81).2.2.1 < 0 :=
  (c1_kinematic_predictor 0 0 0 1 1 0 1 1 9.81).2
    one_pos one_pos one_pos one_pos

/-- C2: the frame transform maps the predicted position itself to local
`(0, 0)`, and the rotation part maps the predicted heading direction
`(cos ψ', sin ψ')` to `(1, 0)`, i.e. local heading `0`. -/
theorem c2_frame_invariance (pxPred pyPred psiPred : ℝ) :
    toLocal pxPred pyPred psiPred (pxPred, pyPred) = (0, 0) ∧
    rotToLocal psiPred (Real.cos psiPred, Real.sin psiPred) = (1, 0) := by
  constructor
  · simp [toLocal]
  · simp only [rotToLocal, Real.cos_neg, Real.sin_neg, Prod.mk.injEq]
    constructor
    · have h := Real.cos_sq_add_sin_sq psiPred
      nlinarith [h]
    · ring

/-- C3: the cross-track error is the fitted curve evaluated at `x = 0`,
which is exactly the constant coefficient (the head of the coefficient
list) — an identity on the reals, not an approximation. -/
theorem c3_cross_track_error (coeffs : List ℝ) :
    cteOf coeffs = polyeval coeffs 0 ∧ polyeval coeffs 0 = coeffs.headD 0 := by
  refine ⟨rfl, ?_⟩
  rcases coeffs with _ | ⟨a, t⟩
  · simp [polyeval]
  · simp [polyeval, Finset.sum_range_succ', pow_succ, mul_comm]

/-- C4: for a coefficient list with at least two entries, the heading error
is the negated arctangent of the first-degree coefficient. -/
theorem c4_heading_error (coeffs : List ℝ) (h : 2 ≤ coeffs.length) :
    epsiOf coeffs = -Real.arctan (coeffs.get ⟨1, by omega⟩) := by
  rcases coeffs with _ | ⟨a, t⟩
  · simp at h
  rcases t with _ | ⟨b, t⟩
  · simp at h
  rfl

/-- Witness for C4 on the concrete coefficient list `[1, 0]`. -/
theorem c4_witness :
    2 ≤ ([1, 0] : List ℝ).length ∧ epsiOf [1, 0] = -Real.arctan 0 := by
  refine ⟨by norm_num, ?_⟩
  simpa using c4_heading_error ([1, 0] : List ℝ) (by norm_num)

/-- C5 (amended): with matching sample counts and `D ≥ 1`, `polyfit` aborts
on its precondition `assert` when `N < D + 1` (a crash, not a propagated
error value, and no lower-degree fallback), and for `N ≥ D + 1` returns the
external QR solver applied to the Vandermonde design matrix. -/
theorem c5_underdetermined_guard (solve : List (List ℝ) → List ℝ → List ℝ)
    (xvals yvals : List ℝ) (order : ℤ)
    (hlen : xvals.length = yvals.length) (hord : 1 ≤ order) :
    ((xvals.length : ℤ) < order + 1 →
      polyfit solve xvals yvals order = FitOutcome.abort) ∧
    (order + 1 ≤ (xvals.length : ℤ) →
      polyfit solve xvals yvals order =
        FitOutcome.ok (solve (vandermonde xvals order.toNat) yvals)) := by
  constructor
  · intro hN
    rw [polyfit, if_pos hlen, if_neg]
    rintro ⟨-, h2⟩
    omega
  · intro hN
    rw [polyfit, if_pos hlen, if_pos ⟨hord, by omega⟩]

/-- Witness for C5 on the solvable side: two samples, degree 1, the guard
passes and the solver's value is returned. -/
theorem c5_witness :
    polyfit solve0 [0, 1] [0, 0] 1 = FitOutcome.ok ([] : List ℝ) :=
  (c5_underdetermined_guard solve0 [0, 1] [0, 0] 1 (by norm_num)
    (by norm_num)).2 (by norm_num)

/-- C5 counterexample: with one sample and degree 1 the fitter aborts (the
`assert` in `main.cpp` line 50 fails); it does not produce the propagated
`UnderdeterminedFit` error value the claim describes. -/
theorem c5_counterexample :
    polyfit solve0 [0] [0] 1 = FitOutcome.abort ∧
    (FitOutcome.abort : FitOutcome (List ℝ)) ≠
      FitOutcome.specError SpecFitError.UnderdeterminedFit := by
  exact ⟨rfl, fun h => FitOutcome.noConfusion h⟩

/-- C6: a solver output of length `2 + 2N` splits into steering at index 0,
throttle at index 1, and exactly `N` trajectory pairs whose x-block is
`result[2 .. 2+N)` and whose y-block is `result[2+N .. 2+2N)`, paired by
index. -/
theorem c6_roundtrip_splitting (sol : List ℝ) (n : ℕ)
    (h : sol.length = 2 + 2 * n) :
    steerRaw sol = sol.get ⟨0, by omega⟩ ∧
    throttleRaw sol = sol.get ⟨1, by omega⟩ ∧
    trajN sol = n ∧
    mpcX sol = (sol.drop 2).take n ∧
    mpcY sol = sol.drop (2 + n) ∧
    trajPairs sol = ((sol.drop 2).take n).zip (sol.drop (2 + n)) ∧
    (trajPairs sol).length = n := by
  have hN : trajN sol = n := by unfold trajN; omega
  have hx : mpcX sol = (sol.drop 2).take n := by
    apply List.ext_getElem
    · simp only [mpcX, List.length_map, List.length_range, hN,
        List.length_take, List.length_drop, h]
      omega
    · intro i h1 h2
      have hi : i < n := by simpa [mpcX, hN] using h1
      simp only [mpcX, hN, List.getElem_map, List.getElem_range,
        List.getElem_take, List.getElem_drop]
      rw [List.getD_eq_getElem _ _ (by omega)]
      congr 1
      omega
  have hy : mpcY sol = sol.drop (2 + n) := by
    apply List.ext_getElem
    · simp only [mpcY, List.length_map, List.length_range, hN,
        List.length_drop, h]
      omega
    · intro i h1 h2
      have hi : i < n := by simpa [mpcY, hN] using h1
      simp only [mpcY, hN, List.getElem_map, List.getElem_range,
        List.getElem_drop]
      rw [List.getD_eq_getElem _ _ (by omega)]
      congr 1
      omega
  refine ⟨?_, ?_, hN, hx, hy, ?_, ?_⟩
  · rw [steerRaw, List.get_eq_getElem, List.getD_eq_getElem _ _ (by omega)]
  · rw [throttleRaw, List.get_eq_getElem, List.getD_eq_getElem _ _ (by omega)]
  · rw [trajPairs, hx, hy]
  · rw [trajPairs, hx, hy]
    simp only [List.length_zip, List.length_take, List.length_drop, h]
    omega

/-- Witness for C6 on the concrete solver output `[5, 6, 7, 8, 9, 10]`
(`N = 2`): the x-block is `[7, 8]` and the y-block is `[9, 10]`. -/
theorem c6_witness :
    mpcX [5, 6, 7, 8, 9, 10] = ([7, 8] : List ℝ) ∧
    mpcY [5, 6, 7, 8, 9, 10] = ([9, 10] : List ℝ) := by
  obtain ⟨-, -, -, hx, hy, -, -⟩ :=
    c6_roundtrip_splitting [5, 6, 7, 8, 9, 10] 2 (by norm_num)
  exact ⟨hx, hy⟩

/-- C7: the normalizer sends the raw optimizer steering to its negation
divided by the maximum commandable angle `deg2rad 25`, passes throttle
through unchanged, and applies no clamping: a raw steering of twice the
maximum angle comes out as `-2`, outside `[-1, 1]`. -/
theorem c7_actuation_normalizer (sol : List ℝ) :
    steerValueOf sol = -(steerRaw sol / deg2rad 25) ∧
    throttleValueOf sol = throttleRaw sol ∧
    steerValueOf [2 * deg2rad 25] = -2 ∧
    1 < |steerValueOf [2 * deg2rad 25]| := by
  have hpi := Real.pi_ne_zero
  have h3 : steerValueOf [2 * deg2rad 25] = -2 := by
    simp only [steerValueOf, steerRaw, List.getD_cons_zero, deg2rad]
    field_simp
    ring
  refine ⟨by unfold steerValueOf; ring, rfl, h3, ?_⟩
  rw [h3]
  norm_num

/-- C8 counterexample: on the transformed example waypoints
`x = [0, 1, 2]`, `y = [1, 1, 1]`, the pipeline's fit — degree 3, hard-coded
in `main.cpp` line 118 — aborts on the fitter's `assert` (3 samples cannot
determine 4 coefficients), so it does not return the coefficients `[1, 0]`
the claim describes. -/
theorem c8_counterexample :
    polyfit solve0 [0, 1, 2] [1, 1, 1] 3 = FitOutcome.abort ∧
    (FitOutcome.abort : FitOutcome (List ℝ)) ≠ FitOutcome.ok [1, 0] := by
  exact ⟨rfl, fun h => FitOutcome.noConfusion h⟩

/-- C8 (amended): from pose `(0, 0, 0)`, predictor speed `10` m/s, zero
steering and throttle, the predictor yields pose `(1, 0, 0)` and speed
`10`; the waypoints `(1,1), (2,1), (3,1)` transform to local
`(0,1), (1,1), (2,1)`; the degree-3 fit the code then runs aborts on its
precondition, so no coefficients, cross-track error or heading error are
produced. -/
theorem c8_example_cycle :
    predict 0 0 0 10 0 0 latency Lf throttleGain = (1, 0, 0, 10) ∧
    ([(1, 1), (2, 1), (3, 1)] : List (ℝ × ℝ)).map (toLocal 1 0 0) =
      ([(0, 1), (1, 1), (2, 1)] : List (ℝ × ℝ)) ∧
    polyfit solve0 [0, 1, 2] [1, 1, 1] 3 = FitOutcome.abort := by
  refine ⟨?_, ?_, rfl⟩
  · simp only [predict, latency, Lf, throttleGain, Real.cos_zero, Real.sin_zero,
      Prod.mk.injEq]
    norm_num
  · simp only [List.map_cons, List.map_nil, toLocal, neg_zero, Real.cos_zero,
      Real.sin_zero, Prod.mk.injEq]
    norm_num

/-- C9: the predictor, transform and error-extraction arithmetic of the
cycle is total: with its single division (`v / Lf`) routed through a
definedness check, the cycle still succeeds on every telemetry input —
including degenerate ones such as zero speed — because `Lf = 2.67 ≠ 0` and
every other operation is total on the reals. -/
theorem c9_total_arithmetic (solve : List (List ℝ) → List ℝ → List ℝ)
    (t : Telemetry) :
    checkedCycleOf solve t = some (cycleOf solve t) := by
  have hLf : (Lf : ℝ) ≠ 0 := by norm_num [Lf]
  simp only [checkedCycleOf, cycleOf, checkedDiv, if_neg hLf, Option.map_some']

/-- C10: the telemetry speed is converted by `0.44704` (mph to m/s)
immediately after decoding, and the whole cycle — prediction, frame
transform, error extraction and the state vector handed to the solver —
is exactly the m/s pipeline run on the converted speed. -/
theorem c10_speed_conversion (solve : List (List ℝ) → List ℝ → List ℝ)
    (t : Telemetry) :
    cycleOf solve t = cycleFromMs solve { t with v := t.v * 0.44704 } := rfl
